import Mathlib

/-!
Verification of the CodeCell project-lifecycle core: the Project entity and
template builder, the dirty-tracking store, the persistence facade
(`saveProject` / `saveProjectAs` / `saveAsTemplate`) and the per-window
execution coordinator (`handleRun`, stop and the clear-output actions).

The definitions are a shallow embedding of the TypeScript sources:
`src/stores/projectStore.ts` and the compiled-editor component.  External
collaborators (Tauri `invoke`, the file-save dialog) are modelled as explicit
outcome parameters, and each facade operation additionally returns the list of
collaborator calls it performed, in order.  Timestamps (`new Date()`) and
fresh ids (`crypto.randomUUID()`) are passed in as explicit arguments.
-/

namespace CodeCell

/-- Model of `WebTemplateConfig` from `src/types/index.ts`.  The TS literal unions are
modelled as plain strings; the claims do not depend on their closedness. -/
structure WebTemplateConfig where
  markup : String
  styling : String
  script : String
  framework : String
deriving DecidableEq, Repr

/-- Model of `ProjectFile` from `src/types/index.ts`: `{name, content, language}`. -/
structure ProjectFile where
  name : String
  content : String
  language : String
deriving DecidableEq, Repr

/-- Model of `Project` from `src/types/index.ts`.  `template` is a string together with
the `isTemplateType` predicate below, mirroring the TS union `TemplateType`
which erases to a string at runtime. -/
structure Project where
  id : String
  name : String
  template : String
  webConfig : Option WebTemplateConfig
  files : List ProjectFile
  createdAt : String
  updatedAt : String
  savedPath : Option String
deriving DecidableEq, Repr

/-- The closed TS union `TemplateType = "web" | "node" | "python" | "rust" |
"java" | "typescript"`, as a predicate on runtime strings. -/
def isTemplateType (s : String) : Bool :=
  s == "web" || s == "node" || s == "python" || s == "rust" || s == "java" || s == "typescript"

/-- Model of `RecentProject` from `src/types/index.ts`. -/
structure RecentProject where
  id : String
  name : String
  template : String
  path : String
  updatedAt : String
deriving DecidableEq, Repr

/-- Model of `QuickTemplate` as the store uses it: the declared interface fields plus
the optional `files` snapshot that `loadQuickTemplates` attaches to custom
templates and `createProjectFromTemplate` reads back. -/
structure QuickTemplate where
  id : String
  name : String
  type : String
  config : Option WebTemplateConfig
  icon : String
  isBuiltIn : Bool
  files : Option (List ProjectFile)
deriving DecidableEq, Repr

/-- Model of `CustomTemplate` as constructed in `saveAsTemplate`
(`src/stores/projectStore.ts`, lines 600-608). -/
structure CustomTemplate where
  id : String
  name : String
  type : String
  config : Option WebTemplateConfig
  icon : String
  files : List ProjectFile
  createdAt : String
deriving DecidableEq, Repr

/-! ### The clean-files snapshot

`cleanFilesSnapshot` is a JS `Map<string, string>`; we model it as an
association list with `Map.get` / `Map.set` semantics (update the existing
key in place, otherwise append). -/

/-- Association-list model of `Map<string, string>`. -/
abbrev Snapshot := List (String × String)

/-- Model of `Map.get`: the value at the first (and, for maps built by `snapSet`,
only) occurrence of the key, `none` when absent (JS `undefined`). -/
def snapGet : Snapshot → String → Option String
  | [], _ => none
  | (k, v) :: rest, n => if k = n then some v else snapGet rest n

/-- Model of `Map.set`: overwrite the existing entry for the key, else append. -/
def snapSet : Snapshot → String → String → Snapshot
  | [], k, v => [(k, v)]
  | (k', v') :: rest, k, v =>
    if k' = k then (k, v) :: rest else (k', v') :: snapSet rest k v

/-- Model of `files.forEach((f) => snapshot.set(f.name, f.content))` on a fresh map,
as in `setCurrentProject`, `markClean`, `openProject` and
`createProjectFromTemplate`. -/
def snapshotOfFiles (files : List ProjectFile) : Snapshot :=
  files.foldl (fun m f => snapSet m f.name f.content) []

/-! ### The store state and the dirty-tracking operations
(`src/stores/projectStore.ts`) -/

/-- The Zustand store fields relevant to the lifecycle core. -/
structure ProjectState where
  currentProject : Option Project
  recentProjects : List RecentProject
  quickTemplates : List QuickTemplate
  isDirty : Bool
  lastSavedAt : Option String
  cleanFilesSnapshot : Snapshot
deriving DecidableEq, Repr

/-- Model of `DEFAULT_QUICK_TEMPLATES` (`src/stores/projectStore.ts`, lines 44-89). -/
def DEFAULT_QUICK_TEMPLATES : List QuickTemplate :=
  [ { id := "web-vanilla", name := "HTML/CSS/JS", type := "web",
      config := some { markup := "html", styling := "css", script := "javascript", framework := "none" },
      icon := "globe", isBuiltIn := true, files := none },
    { id := "web-react", name := "React + TypeScript", type := "web",
      config := some { markup := "html", styling := "css", script := "typescript", framework := "react" },
      icon := "atom", isBuiltIn := true, files := none },
    { id := "node", name := "Node.js", type := "node", config := none,
      icon := "server", isBuiltIn := true, files := none },
    { id := "python", name := "Python", type := "python", config := none,
      icon := "terminal", isBuiltIn := true, files := none },
    { id := "rust", name := "Rust", type := "rust", config := none,
      icon := "cog", isBuiltIn := true, files := none },
    { id := "java", name := "Java", type := "java", config := none,
      icon := "coffee", isBuiltIn := true, files := none } ]

/-- The store's initial state (`create<ProjectState>` initialiser). -/
def initialState : ProjectState :=
  { currentProject := none
    recentProjects := []
    quickTemplates := DEFAULT_QUICK_TEMPLATES
    isDirty := false
    lastSavedAt := none
    cleanFilesSnapshot := [] }

/-- Model of `setCurrentProject` (lines 289-295): replace the project, rebuild the
snapshot from the incoming files (empty when `null`), force `isDirty=false`. -/
def setCurrentProject (st : ProjectState) (project : Option Project) : ProjectState :=
  let snapshot : Snapshot :=
    match project with
    | some p => snapshotOfFiles p.files
    | none => []
  { st with currentProject := project, isDirty := false, cleanFilesSnapshot := snapshot }

/-- Model of `updateFile` (lines 297-319).  `now` stands for the
`new Date().toISOString()` used for the bumped `updatedAt`. -/
def updateFile (st : ProjectState) (fileName content now : String) : ProjectState :=
  match st.currentProject with
  | none => st
  | some currentProject =>
    let updatedFiles := currentProject.files.map (fun f =>
      if f.name = fileName then { f with content := content } else f)
    let isActuallyDirty := updatedFiles.any (fun file =>
      decide (snapGet st.cleanFilesSnapshot file.name ≠ some file.content))
    { st with
      currentProject := some { currentProject with files := updatedFiles, updatedAt := now }
      isDirty := isActuallyDirty }

/-- Model of `markClean` (lines 321-328).  `now` stands for `new Date().toISOString()`
recorded into `lastSavedAt`. -/
def markClean (st : ProjectState) (now : String) : ProjectState :=
  let snapshot : Snapshot :=
    match st.currentProject with
    | some p => snapshotOfFiles p.files
    | none => []
  { st with isDirty := false, lastSavedAt := some now, cleanFilesSnapshot := snapshot }

/-- The files of the current project (empty when no project is loaded). -/
def currentFiles (st : ProjectState) : List ProjectFile :=
  match st.currentProject with
  | some p => p.files
  | none => []

/-- The spec's dirty condition: some file's current content differs from the
clean snapshot at that file's name (a missing snapshot entry differs from
every content, as JS `undefined !== string`). -/
def filesDiffer (files : List ProjectFile) (snap : Snapshot) : Prop :=
  ∃ f ∈ files, snapGet snap f.name ≠ some f.content

instance (files : List ProjectFile) (snap : Snapshot) : Decidable (filesDiffer files snap) :=
  List.decidableBEx _ files

/-! ### Sequences of dirty-tracking operations (for the dirty invariant) -/

/-- One user-level mutation of the dirty-tracking store. -/
inductive StoreOp where
  | setCurrentProject (project : Option Project)
  | updateFile (fileName content now : String)
  | markClean (now : String)
deriving DecidableEq, Repr

/-- Apply one operation. -/
def applyOp (st : ProjectState) : StoreOp → ProjectState
  | StoreOp.setCurrentProject project => setCurrentProject st project
  | StoreOp.updateFile fileName content now => updateFile st fileName content now
  | StoreOp.markClean now => markClean st now

/-- Apply a sequence of operations, left to right. -/
def applyOps (st : ProjectState) : List StoreOp → ProjectState
  | [] => st
  | op :: rest => applyOps (applyOp st op) rest

/-- A `setCurrentProject` argument with pairwise-distinct file names (always
true for template-built projects); the other operations are unconstrained. -/
def opRespectsNames : StoreOp → Prop
  | StoreOp.setCurrentProject (some p) => (p.files.map (fun f => f.name)).Nodup
  | StoreOp.setCurrentProject none => True
  | StoreOp.updateFile _ _ _ => True
  | StoreOp.markClean _ => True

instance (op : StoreOp) : Decidable (opRespectsNames op) :=
  match op with
  | StoreOp.setCurrentProject (some p) =>
    (inferInstance : Decidable ((p.files.map (fun f => f.name)).Nodup))
  | StoreOp.setCurrentProject none => isTrue trivial
  | StoreOp.updateFile _ _ _ => isTrue trivial
  | StoreOp.markClean _ => isTrue trivial

/-! ### Snapshot lemmas -/

theorem snapGet_snapSet_self (m : Snapshot) (k v : String) :
    snapGet (snapSet m k v) k = some v := by
  induction m with
  | nil => simp [snapSet, snapGet]
  | cons head rest ih =>
    obtain ⟨k', v'⟩ := head
    by_cases h : k' = k
    · simp [snapSet, h, snapGet]
    · simp [snapSet, h, snapGet, ih]

theorem snapGet_snapSet_ne (m : Snapshot) (k v n : String) (h : n ≠ k) :
    snapGet (snapSet m k v) n = snapGet m n := by
  have hkn : ¬ k = n := fun hk => h hk.symm
  induction m with
  | nil => simp [snapSet, snapGet, hkn]
  | cons head rest ih =>
    obtain ⟨k', v'⟩ := head
    by_cases hk : k' = k
    · subst hk
      simp [snapSet, snapGet, hkn]
    · simp only [snapSet, if_neg hk, snapGet]
      by_cases hn : k' = n <;> simp [hn, ih]

theorem snapGet_foldSet_of_absent (fs : List ProjectFile) (m : Snapshot) (n : String)
    (h : ∀ f ∈ fs, f.name ≠ n) :
    snapGet (fs.foldl (fun m f => snapSet m f.name f.content) m) n = snapGet m n := by
  induction fs generalizing m with
  | nil => rfl
  | cons f fs ih =>
    simp only [List.foldl_cons]
    rw [ih _ (fun g hg => h g (List.mem_cons_of_mem _ hg))]
    exact snapGet_snapSet_ne _ _ _ _ (Ne.symm (h f (List.mem_cons_self _ _)))

theorem snapGet_foldSet_mem (fs : List ProjectFile) (m : Snapshot) (f : ProjectFile)
    (hmem : f ∈ fs) (hnodup : (fs.map (fun g => g.name)).Nodup) :
    snapGet (fs.foldl (fun m g => snapSet m g.name g.content) m) f.name = some f.content := by
  induction fs generalizing m with
  | nil => cases hmem
  | cons g gs ih =>
    simp only [List.map_cons, List.nodup_cons] at hnodup
    rcases List.mem_cons.mp hmem with heq | hmem'
    · subst heq
      simp only [List.foldl_cons]
      rw [snapGet_foldSet_of_absent]
      · exact snapGet_snapSet_self _ _ _
      · intro h hh hname
        exact hnodup.1 (hname ▸ List.mem_map_of_mem (fun x => x.name) hh)
    · exact ih _ hmem' hnodup.2

theorem not_filesDiffer_snapshotOfFiles (fs : List ProjectFile)
    (hnodup : (fs.map (fun g => g.name)).Nodup) :
    ¬ filesDiffer fs (snapshotOfFiles fs) := by
  rintro ⟨f, hf, hne⟩
  exact hne (snapGet_foldSet_mem fs [] f hf hnodup)

theorem names_map_update (files : List ProjectFile) (fn c : String) :
    ((files.map (fun f => if f.name = fn then { f with content := c } else f)).map
      (fun f => f.name)) = files.map (fun f => f.name) := by
  induction files with
  | nil => rfl
  | cons f fs ih =>
    by_cases h : f.name = fn <;> simp [h, ih]

theorem any_eq_decide_filesDiffer (files : List ProjectFile) (snap : Snapshot) :
    (files.any fun f => decide (snapGet snap f.name ≠ some f.content)) =
      decide (filesDiffer files snap) := by
  by_cases h : filesDiffer files snap
  · rcases h with ⟨f, hf, hne⟩
    rw [List.any_eq_true.mpr ⟨f, hf, decide_eq_true hne⟩, decide_eq_true ⟨f, hf, hne⟩]
  · rw [decide_eq_false h]
    by_contra hany
    rw [Bool.not_eq_false, List.any_eq_true] at hany
    rcases hany with ⟨f, hf, hd⟩
    exact h ⟨f, hf, of_decide_eq_true hd⟩

/-! ### The dirty invariant -/

/-- The current project's file names are pairwise distinct. -/
def namesNodup (st : ProjectState) : Prop :=
  match st.currentProject with
  | some p => (p.files.map (fun f => f.name)).Nodup
  | none => True

/-- The spec's dirty invariant: `isDirty` holds exactly when some current file
differs from the clean snapshot at that file's name. -/
def dirtyInvariant (st : ProjectState) : Prop :=
  st.isDirty = true ↔ filesDiffer (currentFiles st) st.cleanFilesSnapshot

theorem applyOp_preserves (st : ProjectState) (op : StoreOp)
    (hn : namesNodup st) (hd : dirtyInvariant st) (hop : opRespectsNames op) :
    namesNodup (applyOp st op) ∧ dirtyInvariant (applyOp st op) := by
  cases op with
  | setCurrentProject project =>
    cases project with
    | none =>
      refine ⟨trivial, ?_⟩
      simp only [applyOp, setCurrentProject, dirtyInvariant, currentFiles, filesDiffer]
      simp
    | some p =>
      have hpn : (p.files.map (fun f => f.name)).Nodup := hop
      refine ⟨hpn, ?_⟩
      simp only [applyOp, setCurrentProject, dirtyInvariant, currentFiles]
      simpa using not_filesDiffer_snapshotOfFiles p.files hpn
  | updateFile fileName content now =>
    simp only [applyOp]
    cases hc : st.currentProject with
    | none =>
      simp only [updateFile, hc]
      exact ⟨hn, hd⟩
    | some p =>
      constructor
      · simp only [namesNodup, updateFile, hc, names_map_update]
        simpa [namesNodup, hc] using hn
      · simp only [dirtyInvariant, updateFile, hc, currentFiles,
          any_eq_decide_filesDiffer]
        exact ⟨fun h => of_decide_eq_true h, fun h => decide_eq_true h⟩
  | markClean now =>
    simp only [applyOp]
    cases hc : st.currentProject with
    | none =>
      refine ⟨?_, ?_⟩
      · simp [namesNodup, markClean, hc]
      · simp [dirtyInvariant, markClean, hc, currentFiles, filesDiffer]
    | some p =>
      have hpn : (p.files.map (fun f => f.name)).Nodup := by
        simpa [namesNodup, hc] using hn
      refine ⟨?_, ?_⟩
      · simpa [namesNodup, markClean, hc] using hn
      · simp only [dirtyInvariant, markClean, hc, currentFiles]
        simpa using not_filesDiffer_snapshotOfFiles p.files hpn

theorem applyOps_preserves (ops : List StoreOp) (st : ProjectState)
    (hn : namesNodup st) (hd : dirtyInvariant st)
    (hops : ∀ op ∈ ops, opRespectsNames op) :
    namesNodup (applyOps st ops) ∧ dirtyInvariant (applyOps st ops) := by
  induction ops generalizing st with
  | nil => exact ⟨hn, hd⟩
  | cons op rest ih =>
    have hstep := applyOp_preserves st op hn hd (hops op (List.mem_cons_self _ _))
    exact ih _ hstep.1 hstep.2 (fun o ho => hops o (List.mem_cons_of_mem _ ho))

/-! ### Claim C1: the dirty invariant -/

/-- A project whose file list repeats a name with two different contents; a
legal `Project` value (the data model does not require unique names). -/
def dupNameProject : Project :=
  { id := "p-dup", name := "Untitled", template := "node", webConfig := none
    files := [ { name := "index.js", content := "x", language := "javascript" },
               { name := "index.js", content := "y", language := "javascript" } ]
    createdAt := "t0", updatedAt := "t0", savedPath := none }

/-- C1 (counterexample to the claim as stated): after the single operation
`setCurrentProject dupNameProject` the store has `isDirty = false`, yet the
first file's content `"x"` differs from the snapshot entry at `"index.js"`
(which is `"y"`, the later occurrence winning in the `Map`), so "isDirty iff
some file differs from the snapshot at its name" fails. -/
theorem dirty_invariant_counterexample :
    ¬ ((applyOps initialState [StoreOp.setCurrentProject (some dupNameProject)]).isDirty = true ↔
        filesDiffer
          (currentFiles (applyOps initialState [StoreOp.setCurrentProject (some dupNameProject)]))
          (applyOps initialState [StoreOp.setCurrentProject (some dupNameProject)]).cleanFilesSnapshot) := by
  decide

/-- C1 (amended): provided every project installed by `setCurrentProject` has
pairwise-distinct file names, then after any sequence of `setCurrentProject`,
`updateFile` and `markClean` operations starting from the initial store state,
`isDirty` is true iff some file of the current project has content differing
from `cleanFilesSnapshot` at that file's name.  In particular an edit to new
content sets `isDirty` and an edit back to the snapshot content clears it. -/
theorem dirty_invariant_holds (ops : List StoreOp)
    (hops : ∀ op ∈ ops, opRespectsNames op) :
    ((applyOps initialState ops).isDirty = true ↔
      filesDiffer (currentFiles (applyOps initialState ops))
        (applyOps initialState ops).cleanFilesSnapshot) := by
  have hinit : dirtyInvariant initialState := by
    simp [dirtyInvariant, initialState, currentFiles, filesDiffer]
  have hn : namesNodup initialState := trivial
  exact (applyOps_preserves ops initialState hn hinit hops).2

/-- A concrete nodup-named project used by the C1 witness: a python template
project edited to new content and then edited back. -/
def pythonProjectW : Project :=
  { id := "p-w", name := "Untitled", template := "python", webConfig := none
    files := [ { name := "main.py", content := "print(1)", language := "python" } ]
    createdAt := "t0", updatedAt := "t0", savedPath := none }

/-- Witness for C1: the amended invariant theorem applied to the concrete
round-trip sequence load, edit to new content, edit back to the original. -/
theorem dirty_invariant_holds_witness :
    (∀ op ∈ [StoreOp.setCurrentProject (some pythonProjectW),
             StoreOp.updateFile "main.py" "print(2)" "t1",
             StoreOp.updateFile "main.py" "print(1)" "t2"], opRespectsNames op) ∧
    ((applyOps initialState
        [StoreOp.setCurrentProject (some pythonProjectW),
         StoreOp.updateFile "main.py" "print(2)" "t1",
         StoreOp.updateFile "main.py" "print(1)" "t2"]).isDirty = true ↔
      filesDiffer
        (currentFiles (applyOps initialState
          [StoreOp.setCurrentProject (some pythonProjectW),
           StoreOp.updateFile "main.py" "print(2)" "t1",
           StoreOp.updateFile "main.py" "print(1)" "t2"]))
        (applyOps initialState
          [StoreOp.setCurrentProject (some pythonProjectW),
           StoreOp.updateFile "main.py" "print(2)" "t1",
           StoreOp.updateFile "main.py" "print(1)" "t2"]).cleanFilesSnapshot) :=
  ⟨by decide, dirty_invariant_holds _ (by decide)⟩

/-! ### Template catalog (`generateDefaultFiles`, lines 91-259) -/

/-- Starter content of `index.html` for the `web` template. -/
def webIndexHtmlContent : String :=
  "<!DOCTYPE html>\n<html lang=\"en\">\n<head>\n  <meta charset=\"UTF-8\">\n  <meta name=\"viewport\" content=\"width=device-width, initial-scale=1.0\">\n  <title>CodeCell</title>\n  <link rel=\"stylesheet\" href=\"style.css\">\n</head>\n<body>\n  <h1>Hello, CodeCell!</h1>\n  <script src=\"script.js\"></script>\n</body>\n</html>"

/-- Starter content of `style.css` for the `web` template. -/
def webStyleCssContent : String :=
  "* \x7b\n  margin: 0;\n  padding: 0;\n  box-sizing: border-box;\n\x7d\n\nbody \x7b\n  font-family: system-ui, sans-serif;\n  min-height: 100vh;\n  display: flex;\n  align-items: center;\n  justify-content: center;\n  background: linear-gradient(135deg, #1a1a2e 0%, #16213e 100%);\n  color: #eee;\n\x7d\n\nh1 \x7b\n  font-size: 3rem;\n  background: linear-gradient(90deg, #89b4fa, #cba6f7);\n  -webkit-background-clip: text;\n  -webkit-text-fill-color: transparent;\n\x7d"

/-- Starter content of `script.js` for the `web` template. -/
def webScriptJsContent : String :=
  "// Your JavaScript code here\nconsole.log(\"Hello from CodeCell!\");\n\ndocument.querySelector(\"h1\").addEventListener(\"click\", () => \x7b\n  alert(\"You clicked the heading!\");\n\x7d);"

/-- Starter content of `index.js` for the `node` template. -/
def nodeIndexJsContent : String :=
  "// Node.js script\nconst greeting = \"Hello from CodeCell!\";\n\nconsole.log(greeting);\nconsole.log(\"Node.js version:\", process.version);\n\n// Example: Simple HTTP server\n// const http = require(\x27http\x27);\n// http.createServer((req, res) => \x7b\n//   res.writeHead(200, \x7b\x27Content-Type\x27: \x27text/plain\x27\x7d);\n//   res.end(\x27Hello World!\x27);\n// \x7d).listen(3000);"

/-- Starter content of `main.py` for the `python` template. -/
def pythonMainPyContent : String :=
  "# Python script\ndef main():\n    print(\"Hello from CodeCell!\")\n\n    # Example: Simple calculation\n    numbers = [1, 2, 3, 4, 5]\n    print(f\"Sum: \x7bsum(numbers)\x7d\")\n    print(f\"Average: \x7bsum(numbers) / len(numbers)\x7d\")\n\nif __name__ == \"__main__\":\n    main()"

/-- Starter content of `main.rs` for the `rust` template. -/
def rustMainRsContent : String :=
  "fn main() \x7b\n    println!(\"Hello from CodeCell!\");\n\n    // Example: Simple calculation\n    let numbers = vec![1, 2, 3, 4, 5];\n    let sum: i32 = numbers.iter().sum();\n    let avg = sum as f64 / numbers.len() as f64;\n\n    println!(\"Sum: \x7b\x7d\", sum);\n    println!(\"Average: \x7b:.2\x7d\", avg);\n\x7d"

/-- Starter content of `Main.java` for the `java` template. -/
def javaMainJavaContent : String :=
  "public class Main \x7b\n    public static void main(String[] args) \x7b\n        System.out.println(\"Hello from CodeCell!\");\n\n        // Example: Simple calculation\n        int[] numbers = \x7b1, 2, 3, 4, 5\x7d;\n        int sum = 0;\n        for (int n : numbers) \x7b\n            sum += n;\n        \x7d\n        double avg = (double) sum / numbers.length;\n\n        System.out.println(\"Sum: \" + sum);\n        System.out.println(\"Average: \" + avg);\n    \x7d\n\x7d"

/-- Starter content of `index.ts` for the `typescript` template. -/
def typescriptIndexTsContent : String :=
  "// TypeScript script\ninterface Greeting \x7b\n  message: string;\n  timestamp: Date;\n\x7d\n\nfunction greet(): Greeting \x7b\n  return \x7b\n    message: \"Hello from CodeCell!\",\n    timestamp: new Date()\n  \x7d;\n\x7d\n\nconst greeting = greet();\nconsole.log(greeting.message);\nconsole.log(\"Time:\", greeting.timestamp.toISOString());"

/-- Model of `generateDefaultFiles` (lines 91-259): the fixed per-template file sets;
an unrecognized identifier falls through to the empty list (the `default`
case).  The `config` parameter is unused, as `_config` in the source. -/
def generateDefaultFiles (template : String) (_config : Option WebTemplateConfig) :
    List ProjectFile :=
  if template = "web" then
    [ { name := "index.html", language := "html", content := webIndexHtmlContent },
      { name := "style.css", language := "css", content := webStyleCssContent },
      { name := "script.js", language := "javascript", content := webScriptJsContent } ]
  else if template = "node" then
    [ { name := "index.js", language := "javascript", content := nodeIndexJsContent } ]
  else if template = "python" then
    [ { name := "main.py", language := "python", content := pythonMainPyContent } ]
  else if template = "rust" then
    [ { name := "main.rs", language := "rust", content := rustMainRsContent } ]
  else if template = "java" then
    [ { name := "Main.java", language := "java", content := javaMainJavaContent } ]
  else if template = "typescript" then
    [ { name := "index.ts", language := "typescript", content := typescriptIndexTsContent } ]
  else
    []

/-- Model of `buildProject` (lines 265-279).  `id` stands for `crypto.randomUUID()`
and `now` for `new Date().toISOString()`. -/
def buildProject (template : String) (config : Option WebTemplateConfig)
    (id now : String) : Project :=
  { id := id
    name := "Untitled"
    template := template
    webConfig := if template = "web" then config else none
    files := generateDefaultFiles template config
    createdAt := now
    updatedAt := now
    savedPath := none }

/-- Model of `createProjectFromTemplate` (lines 566-593): custom templates clone their
stored `files` verbatim; otherwise the defaults are generated.  Returns the
built project together with the updated store state. -/
def createProjectFromTemplate (st : ProjectState) (t : QuickTemplate)
    (id now : String) : Project × ProjectState :=
  let files : List ProjectFile :=
    match t.files with
    | some fs =>
      if fs.length > 0 then
        fs.map (fun f => { name := f.name, content := f.content, language := f.language })
      else
        generateDefaultFiles t.type t.config
    | none => generateDefaultFiles t.type t.config
  let project : Project :=
    { id := id
      name := "Untitled"
      template := t.type
      webConfig := if t.type = "web" then t.config else none
      files := files
      createdAt := now
      updatedAt := now
      savedPath := none }
  (project,
   { st with currentProject := some project, isDirty := false
             cleanFilesSnapshot := snapshotOfFiles files })

/-! ### Claims C7 and C8: template file fidelity and nonempty file lists -/

/-- C7: for every template in the closed set, `buildProject` yields exactly
the files of the spec's table, in order, with the listed names and languages
and non-empty starter content: web has index.html:html, style.css:css,
script.js:javascript; node has index.js:javascript; python has
main.py:python; rust has main.rs:rust; java has Main.java:java; typescript
has index.ts:typescript. -/
theorem template_file_fidelity (config : Option WebTemplateConfig) (id now : String) :
    ((buildProject "web" config id now).files.map (fun f => (f.name, f.language)) =
        [("index.html", "html"), ("style.css", "css"), ("script.js", "javascript")] ∧
      (buildProject "web" config id now).files.all (fun f => decide (f.content ≠ "")) = true) ∧
    ((buildProject "node" config id now).files.map (fun f => (f.name, f.language)) =
        [("index.js", "javascript")] ∧
      (buildProject "node" config id now).files.all (fun f => decide (f.content ≠ "")) = true) ∧
    ((buildProject "python" config id now).files.map (fun f => (f.name, f.language)) =
        [("main.py", "python")] ∧
      (buildProject "python" config id now).files.all (fun f => decide (f.content ≠ "")) = true) ∧
    ((buildProject "rust" config id now).files.map (fun f => (f.name, f.language)) =
        [("main.rs", "rust")] ∧
      (buildProject "rust" config id now).files.all (fun f => decide (f.content ≠ "")) = true) ∧
    ((buildProject "java" config id now).files.map (fun f => (f.name, f.language)) =
        [("Main.java", "java")] ∧
      (buildProject "java" config id now).files.all (fun f => decide (f.content ≠ "")) = true) ∧
    ((buildProject "typescript" config id now).files.map (fun f => (f.name, f.language)) =
        [("index.ts", "typescript")] ∧
      (buildProject "typescript" config id now).files.all (fun f => decide (f.content ≠ "")) = true) := by
  exact ⟨⟨rfl, rfl⟩, ⟨rfl, rfl⟩, ⟨rfl, rfl⟩, ⟨rfl, rfl⟩, ⟨rfl, rfl⟩, ⟨rfl, rfl⟩⟩

theorem generateDefaultFiles_nonempty (t : String) (cfg : Option WebTemplateConfig)
    (h : isTemplateType t = true) : (generateDefaultFiles t cfg).isEmpty = false := by
  simp only [isTemplateType, Bool.or_eq_true, beq_iff_eq] at h
  rcases h with ((((h | h) | h) | h) | h) | h <;> subst h <;> rfl

/-- C8: for every template identifier in the closed `TemplateType` set (the
type both functions are called with), the built project's file list is
nonempty — both through `buildProject` and through
`createProjectFromTemplate` (whose custom-files branch clones a nonempty
list and otherwise falls back to the generated defaults). -/
theorem created_project_has_files :
    (∀ t cfg id now, isTemplateType t = true →
      (buildProject t cfg id now).files.isEmpty = false) ∧
    (∀ st (qt : QuickTemplate) id now, isTemplateType qt.type = true →
      (createProjectFromTemplate st qt id now).1.files.isEmpty = false) := by
  constructor
  · intro t cfg id now h
    exact generateDefaultFiles_nonempty t cfg h
  · intro st qt id now h
    cases hqt : qt.files with
    | none =>
      simp only [createProjectFromTemplate, hqt]
      exact generateDefaultFiles_nonempty _ _ h
    | some fs =>
      simp only [createProjectFromTemplate, hqt]
      by_cases hl : fs.length > 0
      · rw [if_pos hl]
        cases fs with
        | nil => simp at hl
        | cons a as => rfl
      · rw [if_neg hl]
        exact generateDefaultFiles_nonempty _ _ h

/-- A concrete custom quick template used by the C8 witness. -/
def customQuickW : QuickTemplate :=
  { id := "ct1", name := "My tpl", type := "node", config := none, icon := "server"
    isBuiltIn := false
    files := some [ { name := "index.js", content := "console.log(1)", language := "javascript" } ] }

/-- Witness for C8 at the template identifier `"python"` and at a concrete
custom quick template. -/
theorem created_project_has_files_witness :
    (isTemplateType "python" = true ∧
      (buildProject "python" none "id0" "t0").files.isEmpty = false) ∧
    (isTemplateType customQuickW.type = true ∧
      (createProjectFromTemplate initialState customQuickW "id1" "t0").1.files.isEmpty = false) :=
  ⟨⟨by decide, created_project_has_files.1 "python" none "id0" "t0" (by decide)⟩,
   ⟨by decide, created_project_has_files.2 initialState customQuickW "id1" "t0" (by decide)⟩⟩

/-! ### Persistence facade (`saveProject` / `saveProjectAs` / `saveAsTemplate`) -/

/-- JS `String.prototype.split(/[/\\]/)` on the character list: empty pieces
between consecutive separators are kept and the result is never empty. -/
def jsSplitPathAux : List Char → List Char → List String
  | [], acc => [String.mk acc.reverse]
  | c :: rest, acc =>
    if c == '/' || c == '\\' then String.mk acc.reverse :: jsSplitPathAux rest []
    else jsSplitPathAux rest (c :: acc)

/-- Model of `path.split(/[/\\]/)`. -/
def jsSplitPath (s : String) : List String := jsSplitPathAux s.toList []

/-- Model of `path.split(/[/\\]/).pop()`: the last path component (JS `pop` on the
always-nonempty split result never yields `undefined`, so the `getD` default
is unreachable). -/
def lastPathComponent (path : String) : String :=
  ((jsSplitPath path).getLast?).getD ""

/-- Model of `fileName.replace(/\.codecell$/, "")`: strip one trailing `.codecell`. -/
def stripCodecellExt (fileName : String) : String :=
  let cs := fileName.toList
  let ext := ".codecell".toList
  if ext.isSuffixOf cs then String.mk (cs.take (cs.length - ext.length)) else fileName

deriving instance DecidableEq for Except

/-- Outcomes of the external collaborators touched by a save, plus the
timestamp the wall clock would provide.  `pickerResult` is the file-save
dialog: an exception, a cancellation (`none`), or a chosen path. -/
structure SaveEnv where
  pickerResult : Except String (Option String)
  writeResult : Except String Unit
  addRecentResult : Except String Unit
  now : String
deriving DecidableEq, Repr

/-- Model of `saveProjectAs` (lines 352-399).  Returns the boolean result, the store
state after the call, and the ordered list of collaborator calls made.  A
thrown collaborator error lands in the surrounding `catch`, which returns
`false` while keeping whatever state mutations already happened. -/
def saveProjectAs (st : ProjectState) (env : SaveEnv) :
    Bool × ProjectState × List String :=
  match st.currentProject with
  | none => (false, st, [])
  | some currentProject =>
    match env.pickerResult with
    | Except.error _ => (false, st, ["dialog.save"])
    | Except.ok none => (false, st, ["dialog.save"])
    | Except.ok (some path) =>
      if path = "" then (false, st, ["dialog.save"])
      else
        let fileName :=
          if lastPathComponent path = "" then currentProject.name
          else lastPathComponent path
        let projectName := stripCodecellExt fileName
        let updatedProject : Project :=
          { currentProject with
              name := projectName, savedPath := some path, updatedAt := env.now }
        match env.writeResult with
        | Except.error _ => (false, st, ["dialog.save", "save_project_to_path"])
        | Except.ok _ =>
          let st2 := markClean { st with currentProject := some updatedProject } env.now
          match env.addRecentResult with
          | Except.error _ =>
            (false, st2, ["dialog.save", "save_project_to_path", "add_recent_project"])
          | Except.ok _ =>
            (true, st2, ["dialog.save", "save_project_to_path", "add_recent_project"])

/-- Model of `saveProject` (lines 330-350): delegates to `saveProjectAs` when there is
no saved path yet (JS falsiness also catches an empty-string path), otherwise
writes to the existing path and marks clean on success. -/
def saveProject (st : ProjectState) (env : SaveEnv) :
    Bool × ProjectState × List String :=
  match st.currentProject with
  | none => (false, st, [])
  | some currentProject =>
    match currentProject.savedPath with
    | none => saveProjectAs st env
    | some path =>
      if path = "" then saveProjectAs st env
      else
        match env.writeResult with
        | Except.error _ => (false, st, ["save_project_to_path"])
        | Except.ok _ => (true, markClean st env.now, ["save_project_to_path"])

/-- Collaborator outcomes for the custom-template operations. -/
structure TemplateEnv where
  saveTemplateResult : Except String Unit
  getCustomTemplatesResult : Except String (List CustomTemplate)
  freshId : String
  now : String
deriving DecidableEq, Repr

/-- Model of `loadQuickTemplates` (lines 530-551): fetch the custom templates, convert
them to quick templates and sort them before the built-ins; on failure reset
the catalog to the built-ins. -/
def loadQuickTemplates (st : ProjectState)
    (res : Except String (List CustomTemplate)) : ProjectState × List String :=
  match res with
  | Except.error _ =>
    ({ st with quickTemplates := DEFAULT_QUICK_TEMPLATES }, ["get_custom_templates"])
  | Except.ok customTemplates =>
    let customQuickTemplates : List QuickTemplate := customTemplates.map (fun ct =>
      { id := ct.id, name := ct.name, type := ct.type, config := ct.config
        icon := ct.icon, isBuiltIn := false, files := some ct.files })
    ({ st with quickTemplates := customQuickTemplates ++ DEFAULT_QUICK_TEMPLATES },
     ["get_custom_templates"])

set_option linter.unusedVariables false in
/-- Model of `saveAsTemplate` (lines 595-620): snapshot the current project's files
into a fresh `CustomTemplate`, send it to storage, then reload the catalog
(whose own failure is caught internally and does not fail the save).  The
built `customTemplate` value is only handed to the storage collaborator. -/
def saveAsTemplate (st : ProjectState) (name icon : String) (env : TemplateEnv) :
    Bool × ProjectState × List String :=
  match st.currentProject with
  | none => (false, st, [])
  | some currentProject =>
    let customTemplate : CustomTemplate :=
      { id := env.freshId, name := name, type := currentProject.template
        config := currentProject.webConfig, icon := icon
        files := currentProject.files.map (fun f =>
          { name := f.name, content := f.content, language := f.language })
        createdAt := env.now }
    match env.saveTemplateResult with
    | Except.error _ => (false, st, ["save_custom_template"])
    | Except.ok _ =>
      let reloaded := loadQuickTemplates st env.getCustomTemplatesResult
      (true, reloaded.1, "save_custom_template" :: reloaded.2)

/-! ### Claims C2, C9, C10: persistence facade behaviour -/

/-- A one-file node project with clean snapshot, used as a concrete store
state for the persistence-facade counterexample and witnesses. -/
def nodeProjectW : Project :=
  { id := "p2", name := "Untitled", template := "node", webConfig := none
    files := [ { name := "index.js", content := "console.log(1)", language := "javascript" } ]
    createdAt := "t0", updatedAt := "t0", savedPath := none }

/-- Store state holding `nodeProjectW`, clean. -/
def nodeStateW : ProjectState :=
  { initialState with
      currentProject := some nodeProjectW
      cleanFilesSnapshot := snapshotOfFiles nodeProjectW.files }

/-- Collaborator outcomes where the save dialog and the storage write
succeed but the add-recent-project call throws. -/
def envAddRecentFails : SaveEnv :=
  { pickerResult := Except.ok (some "/tmp/a.codecell")
    writeResult := Except.ok ()
    addRecentResult := Except.error "io error"
    now := "t1" }

/-- C2 (counterexample to the claim as stated): with a chosen path, a
successful storage write and a throwing add-recent-project collaborator,
`saveProjectAs` returns `false` even though the store state has changed
(name, savedPath, snapshot, lastSavedAt were already committed). -/
theorem saveProjectAs_counterexample :
    (saveProjectAs nodeStateW envAddRecentFails).1 = false ∧
    (saveProjectAs nodeStateW envAddRecentFails).2.1 ≠ nodeStateW := by
  decide

/-- The project as committed by a successful `saveProjectAs` write: renamed
after the chosen path's base name (extension stripped; JS falsiness falls
back to the old name on an empty base name), with `savedPath` and
`updatedAt` set. -/
def saveAsCommittedProject (p : Project) (path now : String) : Project :=
  { p with
      name := stripCodecellExt
        (if lastPathComponent path = "" then p.name else lastPathComponent path)
      savedPath := some path
      updatedAt := now }

/-- C2 (amended): `saveProjectAs` leaves the store state exactly unchanged
whenever it returns `false` because no project is loaded, the file picker
threw, was cancelled, or returned an empty path, or the storage write threw;
but when the add-recent-project call throws after a successful write it
still returns `false` while the renamed project, the new `savedPath`,
and the `markClean` effects are already committed. -/
theorem saveProjectAs_failure_behavior (st : ProjectState) (env : SaveEnv) :
    (st.currentProject = none → saveProjectAs st env = (false, st, [])) ∧
    (∀ p e, st.currentProject = some p → env.pickerResult = Except.error e →
      saveProjectAs st env = (false, st, ["dialog.save"])) ∧
    (∀ p, st.currentProject = some p → env.pickerResult = Except.ok none →
      saveProjectAs st env = (false, st, ["dialog.save"])) ∧
    (∀ p, st.currentProject = some p → env.pickerResult = Except.ok (some "") →
      saveProjectAs st env = (false, st, ["dialog.save"])) ∧
    (∀ p path e, st.currentProject = some p → path ≠ "" →
      env.pickerResult = Except.ok (some path) → env.writeResult = Except.error e →
      saveProjectAs st env = (false, st, ["dialog.save", "save_project_to_path"])) ∧
    (∀ p path e, st.currentProject = some p → path ≠ "" →
      env.pickerResult = Except.ok (some path) → env.writeResult = Except.ok () →
      env.addRecentResult = Except.error e →
      saveProjectAs st env =
        (false,
         markClean { st with currentProject := some (saveAsCommittedProject p path env.now) }
           env.now,
         ["dialog.save", "save_project_to_path", "add_recent_project"])) := by
  refine ⟨?_, ?_, ?_, ?_, ?_, ?_⟩
  · intro h
    simp only [saveProjectAs, h]
  · intro p e hp hpick
    simp only [saveProjectAs, hp, hpick]
  · intro p hp hpick
    simp only [saveProjectAs, hp, hpick]
  · intro p hp hpick
    simp [saveProjectAs, hp, hpick]
  · intro p path e hp hpath hpick hwrite
    simp only [saveProjectAs, hp, hpick, if_neg hpath, hwrite]
  · intro p path e hp hpath hpick hwrite hrec
    simp only [saveProjectAs, hp, hpick, if_neg hpath, hwrite, hrec, saveAsCommittedProject]

/-- Collaborator outcomes where the save dialog is cancelled. -/
def envPickerCancelled : SaveEnv :=
  { pickerResult := Except.ok none
    writeResult := Except.ok ()
    addRecentResult := Except.ok ()
    now := "t1" }

/-- Witness for C2: the cancellation clause of the amended theorem at a
concrete state and environment. -/
theorem saveProjectAs_failure_behavior_witness :
    nodeStateW.currentProject = some nodeProjectW ∧
    envPickerCancelled.pickerResult = Except.ok none ∧
    saveProjectAs nodeStateW envPickerCancelled = (false, nodeStateW, ["dialog.save"]) :=
  ⟨rfl, rfl,
   (saveProjectAs_failure_behavior nodeStateW envPickerCancelled).2.2.1 nodeProjectW rfl rfl⟩

/-- C9: on a chosen save destination with a successful write, the project's
name becomes the base name of the chosen path with the `.codecell` extension
stripped, and `savedPath` becomes the chosen path (independently of whether
the subsequent add-recent-project call succeeds). -/
theorem saveProjectAs_name_derivation (st : ProjectState) (env : SaveEnv)
    (p : Project) (path : String)
    (hp : st.currentProject = some p)
    (hpick : env.pickerResult = Except.ok (some path))
    (hbase : lastPathComponent path ≠ "")
    (hwrite : env.writeResult = Except.ok ()) :
    ∃ p', (saveProjectAs st env).2.1.currentProject = some p' ∧
      p'.name = stripCodecellExt (lastPathComponent path) ∧
      p'.savedPath = some path := by
  have hpath : path ≠ "" := by
    intro h
    subst h
    exact hbase rfl
  cases hrec : env.addRecentResult with
  | error e =>
    simp only [saveProjectAs, hp, hpick, if_neg hpath, hwrite, hrec, markClean]
    exact ⟨_, rfl, by rw [if_neg hbase], rfl⟩
  | ok u =>
    simp only [saveProjectAs, hp, hpick, if_neg hpath, hwrite, hrec, markClean]
    exact ⟨_, rfl, by rw [if_neg hbase], rfl⟩

/-- Save environment choosing `/tmp/My Note.codecell`, all calls succeeding. -/
def envMyNote : SaveEnv :=
  { pickerResult := Except.ok (some "/tmp/My Note.codecell")
    writeResult := Except.ok ()
    addRecentResult := Except.ok ()
    now := "t1" }

/-- Witness for C9: saving as `"/tmp/My Note.codecell"` sets
`name = "My Note"` and `savedPath = "/tmp/My Note.codecell"`. -/
theorem saveProjectAs_name_derivation_witness :
    (∃ p', (saveProjectAs nodeStateW envMyNote).2.1.currentProject = some p' ∧
      p'.name = stripCodecellExt (lastPathComponent "/tmp/My Note.codecell") ∧
      p'.savedPath = some "/tmp/My Note.codecell") ∧
    stripCodecellExt (lastPathComponent "/tmp/My Note.codecell") = "My Note" :=
  ⟨saveProjectAs_name_derivation nodeStateW envMyNote nodeProjectW
      "/tmp/My Note.codecell" rfl rfl (by decide) rfl,
   by decide⟩

/-- C10: with no current project, `saveProject`, `saveProjectAs` and
`saveAsTemplate` all return `false` immediately, perform no collaborator
call (empty call trace) and leave the store state unchanged. -/
theorem no_project_saves_are_noops (st : ProjectState) (env : SaveEnv)
    (tenv : TemplateEnv) (name icon : String)
    (h : st.currentProject = none) :
    saveProject st env = (false, st, []) ∧
    saveProjectAs st env = (false, st, []) ∧
    saveAsTemplate st name icon tenv = (false, st, []) := by
  refine ⟨?_, ?_, ?_⟩ <;> simp only [saveProject, saveProjectAs, saveAsTemplate, h]

/-- A template environment with all collaborator calls succeeding. -/
def tenvOk : TemplateEnv :=
  { saveTemplateResult := Except.ok ()
    getCustomTemplatesResult := Except.ok []
    freshId := "ct-id"
    now := "t1" }

/-- Witness for C10 at the initial store state (no project loaded). -/
theorem no_project_saves_are_noops_witness :
    initialState.currentProject = none ∧
    saveProject initialState envMyNote = (false, initialState, []) ∧
    saveProjectAs initialState envMyNote = (false, initialState, []) ∧
    saveAsTemplate initialState "tpl" "globe" tenvOk = (false, initialState, []) := by
  have h := no_project_saves_are_noops initialState envMyNote tenvOk "tpl" "globe" rfl
  exact ⟨rfl, h.1, h.2.1, h.2.2⟩

/-! ### Execution coordinator (compiled editor, `handleRun` and the
clear-output actions) -/

/-- The terminal `ExecutionResult` event payload. -/
structure ExecutionResult where
  stdout : String
  stderr : String
  exitCode : Int
  durationMs : Nat
deriving DecidableEq, Repr

/-- The two streaming accumulators. -/
structure StreamingOutput where
  stdout : String
  stderr : String
deriving DecidableEq, Repr

/-- The compiled editor's execution-related component state. -/
structure EditorState where
  isRunning : Bool
  result : Option ExecutionResult
  streamingOutput : StreamingOutput
  showOutput : Bool
deriving DecidableEq, Repr

/-- Model of `handleRun` (compiled editor, lines 719-735): guarded no-op when no
project is loaded, already running, or the project has no files; otherwise
resets the accumulators and result, raises `isRunning`, and invokes the
executor.  A synchronous executor rejection (the `catch`) synthesizes the
terminal result and clears `isRunning`.  The returned boolean records
whether the executor collaborator was invoked. -/
def handleRun (currentProject : Option Project) (st : EditorState)
    (execOutcome : Except String Unit) : EditorState × Bool :=
  match currentProject, st.isRunning with
  | none, _ => (st, false)
  | some _, true => (st, false)
  | some proj, false =>
    match proj.files with
    | [] => (st, false)
    | _file :: _ =>
      let st1 : EditorState :=
        { st with isRunning := true, result := none
                  streamingOutput := { stdout := "", stderr := "" }, showOutput := true }
      match execOutcome with
      | Except.ok _ => (st1, true)
      | Except.error e =>
        ({ st1 with
            result := some { stdout := "", stderr := e, exitCode := -1, durationMs := 0 }
            isRunning := false },
         true)

/-- The output panel's clear action (lines 988-991): reset the terminal
result and both streaming accumulators. -/
def outputPanelClear (st : EditorState) : EditorState :=
  { st with result := none, streamingOutput := { stdout := "", stderr := "" } }

/-- The command palette's `clear-output` command (lines 854-858): only
`setResult(null)`. -/
def paletteClearOutput (st : EditorState) : EditorState :=
  { st with result := none }

/-! ### Claim C3: synchronous executor rejection -/

/-- C3: when the run proceeds (project loaded, a first file exists, not
already running) and the executor invocation rejects synchronously, the
coordinator sets the terminal result to stdout `""`, stderr the error
message, exit code `-1`, duration `0`, and clears `isRunning` — all in the
same step, without waiting for any event (the executor was invoked, the
accumulators were reset and the output panel shown). -/
theorem run_sync_rejection (proj : Project) (st : EditorState)
    (file : ProjectFile) (rest : List ProjectFile) (msg : String)
    (hrun : st.isRunning = false) (hfiles : proj.files = file :: rest) :
    handleRun (some proj) st (Except.error msg) =
      ({ st with
          isRunning := false
          result := some { stdout := "", stderr := msg, exitCode := -1, durationMs := 0 }
          streamingOutput := { stdout := "", stderr := "" }
          showOutput := true },
       true) := by
  cases st with
  | mk isRunning result streamingOutput showOutput =>
    cases hrun
    simp only [handleRun, hfiles]

/-- A concrete editor state for the coordinator witnesses. -/
def idleEditorState : EditorState :=
  { isRunning := false
    result := some { stdout := "old", stderr := "", exitCode := 0, durationMs := 3 }
    streamingOutput := { stdout := "old", stderr := "" }
    showOutput := false }

/-- Witness for C3 at a concrete project, state and error message. -/
theorem run_sync_rejection_witness :
    idleEditorState.isRunning = false ∧
    nodeProjectW.files =
      { name := "index.js", content := "console.log(1)", language := "javascript" } :: [] ∧
    handleRun (some nodeProjectW) idleEditorState (Except.error "runtime not found") =
      ({ idleEditorState with
          isRunning := false
          result := some
            { stdout := "", stderr := "runtime not found", exitCode := -1, durationMs := 0 }
          streamingOutput := { stdout := "", stderr := "" }
          showOutput := true },
       true) :=
  ⟨rfl, rfl,
   run_sync_rejection nodeProjectW idleEditorState
     { name := "index.js", content := "console.log(1)", language := "javascript" } []
     "runtime not found" rfl rfl⟩

/-! ### Claim C4: the re-run and precondition guards -/

/-- C4: a run request while already running, with no project loaded, or with
an empty file list is a guarded no-op — the editor state (accumulators and
terminal result included) is returned unchanged and the executor is not
invoked, so no second execution session starts. -/
theorem run_request_guards (currentProject : Option Project) (st : EditorState)
    (execOutcome : Except String Unit) :
    (st.isRunning = true → handleRun currentProject st execOutcome = (st, false)) ∧
    (currentProject = none → handleRun currentProject st execOutcome = (st, false)) ∧
    (∀ proj, currentProject = some proj → proj.files = [] →
      handleRun currentProject st execOutcome = (st, false)) := by
  refine ⟨?_, ?_, ?_⟩
  · intro h
    cases currentProject with
    | none => rfl
    | some proj => simp only [handleRun, h]
  · intro h
    subst h
    rfl
  · intro proj hcp hfiles
    subst hcp
    cases hrun : st.isRunning with
    | true => simp only [handleRun, hrun]
    | false => simp only [handleRun, hrun, hfiles]

/-- A running editor state for the C4 witness. -/
def runningEditorState : EditorState :=
  { isRunning := true
    result := none
    streamingOutput := { stdout := "a", stderr := "b" }
    showOutput := true }

/-- A project with an empty file list (as built from an unrecognized
template identifier). -/
def emptyFilesProject : Project :=
  { id := "p-empty", name := "Untitled", template := "unknown", webConfig := none
    files := [], createdAt := "t0", updatedAt := "t0", savedPath := none }

/-- Witness for C4: all three guard clauses at concrete inputs. -/
theorem run_request_guards_witness :
    (runningEditorState.isRunning = true ∧
      handleRun (some nodeProjectW) runningEditorState (Except.ok ()) =
        (runningEditorState, false)) ∧
    handleRun none idleEditorState (Except.ok ()) = (idleEditorState, false) ∧
    (emptyFilesProject.files = [] ∧
      handleRun (some emptyFilesProject) idleEditorState (Except.ok ()) =
        (idleEditorState, false)) :=
  ⟨⟨rfl, (run_request_guards (some nodeProjectW) runningEditorState (Except.ok ())).1 rfl⟩,
   (run_request_guards none idleEditorState (Except.ok ())).2.1 rfl,
   ⟨rfl, (run_request_guards (some emptyFilesProject) idleEditorState (Except.ok ())).2.2
      emptyFilesProject rfl rfl⟩⟩

/-! ### Claim C5: the clear-output actions -/

/-- A mid-run editor state with nonempty accumulators. -/
def midRunEditorState : EditorState :=
  { isRunning := true
    result := some { stdout := "ab", stderr := "", exitCode := 0, durationMs := 5 }
    streamingOutput := { stdout := "a", stderr := "e" }
    showOutput := true }

/-- C5 (counterexample to the claim as stated): the command palette's
`clear-output` action does not reset the streaming accumulators — on a state
with accumulated output they are left as-is, so not every clear-output
action resets both accumulators. -/
theorem clear_output_counterexample :
    ¬ ((paletteClearOutput midRunEditorState).streamingOutput =
        { stdout := "", stderr := "" }) := by
  decide

/-- C5 (amended): the output panel's clear action resets both streaming
accumulators and the terminal result and leaves `isRunning` (and the rest of
the state) unchanged, in any state including mid-run; the palette's
`clear-output` command resets only the terminal result, leaving the
accumulators and `isRunning` unchanged. -/
theorem clear_output_behavior (st : EditorState) :
    (outputPanelClear st).result = none ∧
    (outputPanelClear st).streamingOutput = { stdout := "", stderr := "" } ∧
    (outputPanelClear st).isRunning = st.isRunning ∧
    (outputPanelClear st).showOutput = st.showOutput ∧
    (paletteClearOutput st).result = none ∧
    (paletteClearOutput st).streamingOutput = st.streamingOutput ∧
    (paletteClearOutput st).isRunning = st.isRunning ∧
    (paletteClearOutput st).showOutput = st.showOutput :=
  ⟨rfl, rfl, rfl, rfl, rfl, rfl, rfl, rfl⟩

/-! ### Claim C6: `updateFile` frame conditions -/

theorem map_update_of_absent (files : List ProjectFile) (fn c : String)
    (h : ∀ f ∈ files, f.name ≠ fn) :
    files.map (fun f => if f.name = fn then { f with content := c } else f) = files := by
  induction files with
  | nil => rfl
  | cons f fs ih =>
    simp only [List.map_cons]
    rw [if_neg (h f (List.mem_cons_self _ _)),
      ih (fun g hg => h g (List.mem_cons_of_mem _ hg))]

/-- C6 (counterexample to the claim as stated): when the current project has
no file named `fileName`, `updateFile` is not a no-op — `updatedAt` is still
bumped to the fresh timestamp, so the store state changes. -/
theorem updateFile_counterexample :
    updateFile nodeStateW "missing.js" "z" "t1" ≠ nodeStateW := by
  decide

/-- C6 (amended): `updateFile` is a no-op only when no project is loaded.
When a project is loaded but has no file named `fileName`, the file list is
unchanged yet `updatedAt` is still bumped and `isDirty` recomputed.  In
general the named file's content is replaced (all files of that name), the
project's `updatedAt` is set to the fresh timestamp, and `isDirty` is
recomputed by comparing every file's content against the snapshot, while the
snapshot itself, `lastSavedAt` and the rest of the store are untouched. -/
theorem updateFile_behavior (st : ProjectState) (fn c now : String) :
    (st.currentProject = none → updateFile st fn c now = st) ∧
    (∀ p, st.currentProject = some p → (∀ f ∈ p.files, f.name ≠ fn) →
      updateFile st fn c now =
        { st with
            currentProject := some { p with updatedAt := now }
            isDirty := decide (filesDiffer p.files st.cleanFilesSnapshot) }) ∧
    (∀ p, st.currentProject = some p →
      updateFile st fn c now =
        { st with
            currentProject :=
              some { p with
                      files := p.files.map
                        (fun f => if f.name = fn then { f with content := c } else f)
                      updatedAt := now }
            isDirty := decide (filesDiffer
              (p.files.map (fun f => if f.name = fn then { f with content := c } else f))
              st.cleanFilesSnapshot) }) := by
  refine ⟨?_, ?_, ?_⟩
  · intro h
    simp only [updateFile, h]
  · intro p hp habs
    simp only [updateFile, hp, any_eq_decide_filesDiffer,
      map_update_of_absent p.files fn c habs]
  · intro p hp
    simp only [updateFile, hp, any_eq_decide_filesDiffer]

/-- Witness for C6: the file-not-found clause at a concrete state — the
files stay as they are but `updatedAt` becomes `"t1"`. -/
theorem updateFile_behavior_witness :
    nodeStateW.currentProject = some nodeProjectW ∧
    (∀ f ∈ nodeProjectW.files, f.name ≠ "missing.js") ∧
    updateFile nodeStateW "missing.js" "z" "t1" =
      { nodeStateW with
          currentProject := some { nodeProjectW with updatedAt := "t1" }
          isDirty := decide (filesDiffer nodeProjectW.files nodeStateW.cleanFilesSnapshot) } :=
  ⟨rfl, by decide,
   (updateFile_behavior nodeStateW "missing.js" "z" "t1").2.1 nodeProjectW rfl (by decide)⟩

end CodeCell
